import Mathlib

/-!
Shallow embedding of the content-distribution pipeline (the route handler in
`app/api/process-content/route.ts` and its helper functions).  JS strings are
modelled as `List Char`; JS numbers that carry fractional values are modelled
as `ℚ`; integer-valued scores are modelled as `Int`/`Nat`.  The pseudo-random
jitter of the engagement forecaster and the clock reading of the optimal-time
recommendation are modelled as injected parameters (`Jitter`, the `hour`/`day`
fields of `Env`), matching the spec's requirement that they be injectable.
-/

/-- A JS string, modelled as its list of characters (UTF-16 details ignored;
all inputs of interest are plain text). -/
abbrev Text := List Char

/-- JS regex word character (`\w` = `[A-Za-z0-9_]`); its complement is `\W`. -/
def jsWordChar (c : Char) : Bool :=
  decide (('a' ≤ c ∧ c ≤ 'z') ∨ ('A' ≤ c ∧ c ≤ 'Z') ∨ ('0' ≤ c ∧ c ≤ '9') ∨ c = '_')

/-- ASCII whitespace recognised by JS `\s` and `trim` (the exotic Unicode
space characters are not modelled). -/
def jsWhitespaceChar (c : Char) : Bool :=
  decide (c = ' ' ∨ c = '\t' ∨ c = '\n' ∨ c = '\r' ∨ c = Char.ofNat 11 ∨ c = Char.ofNat 12)

/-- ASCII lower-casing, as `String.prototype.toLowerCase` acts on the
characters that occur in this development. -/
def asciiLower (c : Char) : Char :=
  if 'A' ≤ c ∧ c ≤ 'Z' then Char.ofNat (c.toNat + 32) else c

/-- `text.toLowerCase()`. -/
def lowerText (s : Text) : Text := s.map asciiLower

/-- Worker for `jsSplitRun`: JS `s.split(/D+/)` semantics for a delimiter
class `D` — a maximal run of delimiters separates tokens, and a leading or
trailing delimiter run produces an empty edge token (as JS `split` does).
`prevDelim` records whether the previous character was a delimiter (so that a
continuing run emits no further token); `acc` is the reversed current token. -/
def jsSplitRunAux (d : Char → Bool) : Bool → Text → Text → List Text
  | _, acc, [] => [acc.reverse]
  | prevDelim, acc, c :: rest =>
    if d c then
      if prevDelim then jsSplitRunAux d true [] rest
      else acc.reverse :: jsSplitRunAux d true [] rest
    else jsSplitRunAux d false (c :: acc) rest

/-- JS `s.split(/D+/)` for the delimiter class `d`. -/
def jsSplitRun (d : Char → Bool) (s : Text) : List Text := jsSplitRunAux d false [] s

/-- Worker for `jsSplitChar`: JS `s.split(c)` semantics for a single-character
separator (no run collapsing: adjacent separators yield empty tokens). -/
def jsSplitCharAux (dc : Char) : Text → Text → List Text
  | [], acc => [acc.reverse]
  | c :: rest, acc =>
    if c = dc then acc.reverse :: jsSplitCharAux dc rest []
    else jsSplitCharAux dc rest (c :: acc)

/-- JS `s.split(c)` for a one-character literal separator. -/
def jsSplitChar (dc : Char) (s : Text) : List Text := jsSplitCharAux dc s []

/-- JS `s.trim()` (ASCII whitespace). -/
def jsTrim (s : Text) : Text :=
  ((s.dropWhile jsWhitespaceChar).reverse.dropWhile jsWhitespaceChar).reverse

/-- JS `s.includes(pat)`: contiguous substring test. -/
def containsSub (pat s : Text) : Bool :=
  (List.range (s.length + 1)).any (fun i => decide ((s.drop i).take pat.length = pat))

/-- Helper turning a list of string literals into texts. -/
def strs (l : List String) : List Text := l.map (fun s => s.toList)

/-- JS `Math.round`: round half toward positive infinity. -/
def jsRound (x : ℚ) : Int := Int.floor (x + 1/2)

/-- JS `arr.slice(0, k)` for a possibly negative end index `k`:
a negative `k` counts from the end of the array. -/
def jsSliceTo (k : Int) (l : List Text) : List Text :=
  if k < 0 then l.take ((l.length : Int) + k).toNat else l.take k.toNat

/-! ## Sentiment classifier (`analyzeSentiment`, route.ts lines 81-136) -/

inductive SentimentLabel
  | positive
  | negative
  | neutral
deriving DecidableEq, Repr

structure SentimentResult where
  label : SentimentLabel
  confidence : ℚ
deriving DecidableEq, Repr

/-- The fixed positive lexicon (`positiveWords`). -/
def positiveWords : List Text :=
  strs ["good", "great", "excellent", "amazing", "wonderful", "fantastic", "love",
        "best", "awesome", "perfect", "happy", "excited", "thrilled", "delighted"]

/-- The fixed negative lexicon (`negativeWords`). -/
def negativeWords : List Text :=
  strs ["bad", "terrible", "awful", "horrible", "hate", "worst", "disappointed",
        "frustrated", "angry", "sad", "difficult", "problem", "issue", "failed"]

/-- `text.toLowerCase().split(/\W+/)`, the classifier's token list. -/
def sentimentTokens (text : Text) : List Text :=
  jsSplitRun (fun c => !jsWordChar c) (lowerText text)

/-- Number of tokens hitting the positive lexicon (`positiveCount`). -/
def positiveHits (text : Text) : Nat :=
  (sentimentTokens text).countP (fun w => positiveWords.contains w)

/-- Number of tokens hitting the negative lexicon (`negativeCount`). -/
def negativeHits (text : Text) : Nat :=
  (sentimentTokens text).countP (fun w => negativeWords.contains w)

/-- `analyzeSentiment` (route.ts lines 81-136). -/
def analyzeSentiment (text : Text) : SentimentResult :=
  if positiveHits text + negativeHits text = 0 then ⟨.neutral, 1/2⟩
  else if negativeHits text < positiveHits text then
    ⟨.positive, min (95/100)
      (6/10 + ((positiveHits text : ℚ) / ((positiveHits text : ℚ) + (negativeHits text : ℚ))) * (4/10))⟩
  else if positiveHits text < negativeHits text then
    ⟨.negative, min (95/100)
      (6/10 + ((negativeHits text : ℚ) / ((positiveHits text : ℚ) + (negativeHits text : ℚ))) * (4/10))⟩
  else ⟨.neutral, 7/10⟩

/-! ## Readability scorer (`calculateReadability`, route.ts lines 165-179) -/

/-- Vowel-like character for the syllable estimate (`[aeiouy]`). -/
def isVowelY (c : Char) : Bool :=
  decide (c = 'a' ∨ c = 'e' ∨ c = 'i' ∨ c = 'o' ∨ c = 'u' ∨ c = 'y')

/-- Number of maximal runs of vowel-like characters, i.e. the number of
matches of `/[aeiouy]+/g`. -/
def vowelRunsAux : Bool → Text → Nat
  | _, [] => 0
  | inRun, c :: rest =>
    if isVowelY c then (if inRun then 0 else 1) + vowelRunsAux true rest
    else vowelRunsAux false rest

def vowelRuns (s : Text) : Nat := vowelRunsAux false s

/-- `text.split(/[.!?]+/).filter(s => s.trim().length > 0).length`. -/
def sentenceCount (text : Text) : Nat :=
  ((jsSplitRun (fun c => decide (c = '.' ∨ c = '!' ∨ c = '?')) text).filter
    (fun s => !(jsTrim s).isEmpty)).length

/-- `text.split(/\s+/).filter(w => w.length > 0).length`. -/
def wordCountFiltered (text : Text) : Nat :=
  ((jsSplitRun jsWhitespaceChar text).filter (fun w => !w.isEmpty)).length

/-- Syllable estimate: the `reduce` over `text.split(/\s+/)` adding
`Math.max(1, word.toLowerCase().match(/[aeiouy]+/g)?.length || 1)` per token
(a token with no vowel run contributes 1, via the `|| 1` fallback). -/
def syllableCount (text : Text) : Nat :=
  ((jsSplitRun jsWhitespaceChar text).map (fun w => max 1 (vowelRuns (lowerText w)))).sum

/-- `calculateReadability` (route.ts lines 165-179). -/
def calculateReadability (text : Text) : Int :=
  if sentenceCount text = 0 ∨ wordCountFiltered text = 0 then 50
  else
    max 0 (min 100 (jsRound
      (206835/1000
        - (1015/1000) * ((wordCountFiltered text : ℚ) / (sentenceCount text : ℚ))
        - (846/10) * ((syllableCount text : ℚ) / (wordCountFiltered text : ℚ)))))

/-! ## Channel adapter (`adaptForPlatform`, route.ts lines 182-237) -/

inductive Platform
  | twitter
  | linkedin
  | newsletter
deriving DecidableEq, Repr

/-- Emit a completed maximal word-character run (held reversed in `run`):
replaced by `repl` when its lower-casing is one of the targets. -/
def flushWordRun (targets : List Text) (repl : Text) (run : Text) : Text :=
  if run = [] then []
  else if targets.contains (lowerText run.reverse) then repl else run.reverse

/-- Case-insensitive whole-word replacement, the semantics of
`s.replace(/\b(w1|w2|...)\bgi, repl)` for alternatives `targets` consisting of
word characters only: every maximal run of word characters whose
lower-casing equals one of the targets is replaced by `repl`. -/
def replaceWordsCIAux (targets : List Text) (repl : Text) : Text → Text → Text
  | run, [] => flushWordRun targets repl run
  | run, c :: rest =>
    if jsWordChar c then replaceWordsCIAux targets repl (c :: run) rest
    else flushWordRun targets repl run ++ c :: replaceWordsCIAux targets repl [] rest

def replaceWordsCI (targets : List Text) (repl s : Text) : Text :=
  replaceWordsCIAux targets repl [] s

/-- `s.replace(/!/g, ".")` — and the like. -/
def replaceChar (a b : Char) (s : Text) : Text :=
  s.map (fun c => if c = a then b else c)

/-- `s.replace(/\.$/, "!")`: turn a trailing period into an exclamation mark. -/
def bangTrailingDot (s : Text) : Text :=
  if s.getLast? = some '.' then s.dropLast ++ ['!'] else s

/-- The tone pass of `adaptForPlatform` (route.ts lines 191-206): a `switch`
on the lower-cased tone option; an absent or unrecognised tone changes
nothing. -/
def applyTone (tone : Option Text) (content : Text) : Text :=
  match tone with
  | none => content
  | some t =>
    if lowerText t = ("professional".toList) then
      replaceWordsCI (strs ["awesome", "amazing", "cool"]) ("excellent".toList)
        (replaceChar '!' '.' content)
    else if lowerText t = ("casual".toList) then
      replaceWordsCI (strs ["excellent", "outstanding"]) ("awesome".toList) content
    else if lowerText t = ("enthusiastic".toList) then
      (if content.contains '!' then content else bangTrailingDot content)
    else content

def ellipsisMarker : Text := ("...".toList)

def engagementPrompt : Text := (" What do you think?".toList)

/-- Twitter channel pass, first statement (route.ts lines 212-214):
truncate to 240 characters plus an ellipsis when longer than 240. -/
def twitterTruncate (t : Text) : Text :=
  if 240 < t.length then t.take 240 ++ ellipsisMarker else t

/-- Twitter channel pass, second statement (route.ts lines 216-218):
append the fixed engagement prompt when under 200 characters. -/
def twitterPrompt (t : Text) : Text :=
  if t.length < 200 then t ++ engagementPrompt else t

def apostropheChar : Char := Char.ofNat 39

/-- The fixed business-framing clause prepended for LinkedIn
(the apostrophe of the source literal is spelled via its code point). -/
def linkedinIntro : Text :=
  ("In today".toList) ++ [apostropheChar] ++ ("s business landscape, ".toList)

def linkedinQuestion : Text :=
  ("\n\nWhat has been your experience with this? Share your thoughts in the comments.".toList)

/-- LinkedIn channel pass (route.ts lines 221-228). -/
def linkedinAdapt (t : Text) : Text :=
  (if !containsSub ("professional".toList) t && !containsSub ("business".toList) t then
    linkedinIntro ++ lowerText t
   else t) ++ linkedinQuestion

def newsletterGreeting : Text := ("Dear Subscribers,\n\n".toList)

def newsletterClosing : Text :=
  ("\n\nThank you for reading, and we look forward to sharing more insights with you soon.\n\nBest regards,\nThe Team".toList)

/-- Newsletter channel pass (route.ts lines 230-233). -/
def newsletterAdapt (t : Text) : Text :=
  newsletterGreeting ++ t ++ newsletterClosing

/-- `adaptForPlatform` (route.ts lines 182-237): tone pass, then the
channel-specific pass.  The `audience` parameter is accepted and unused,
as in the source. -/
def adaptForPlatform (content : Text) (platform : Platform)
    (audience tone : Option Text) : Text :=
  match platform with
  | .twitter => twitterPrompt (twitterTruncate (applyTone tone content))
  | .linkedin => linkedinAdapt (applyTone tone content)
  | .newsletter => newsletterAdapt (applyTone tone content)

/-! ## Hashtag strategies (`extractHashtags` lines 139-162,
`generateOptimizedHashtags` lines 342-384) -/

/-- `content.toLowerCase().split(/\W+/).filter(w => w.length > 3)`. -/
def longWords (content : Text) : List Text :=
  (jsSplitRun (fun c => !jsWordChar c) (lowerText content)).filter
    (fun w => decide (3 < w.length))

/-- The fixed per-platform tag lists of `extractHashtags` (`commonHashtags`). -/
def commonHashtags : Platform → List Text
  | .twitter => strs ["#tech", "#innovation", "#business", "#startup", "#ai", "#productivity"]
  | .linkedin => strs ["#professional", "#business", "#leadership", "#growth", "#innovation", "#networking"]
  | .newsletter => []

/-- The content-based tags of `extractHashtags` (route.ts lines 151-155).
Note that the token "ai" has length 2 and is removed by the `length > 3`
filter, so the `words.includes("ai")` disjunct can only be satisfied
through "artificial" — the embedding keeps the dead test as written. -/
def extractContentTags (content : Text) : List Text :=
  (if (longWords content).contains ("technology".toList)
      || (longWords content).contains ("tech".toList) then [("#technology".toList)] else [])
  ++ (if (longWords content).contains ("business".toList) then [("#business".toList)] else [])
  ++ (if (longWords content).contains ("innovation".toList) then [("#innovation".toList)] else [])
  ++ (if (longWords content).contains ("ai".toList)
      || (longWords content).contains ("artificial".toList) then [("#ai".toList)] else [])

/-- `extractHashtags` (route.ts lines 139-162): content-based tags, then
`platformTags.slice(0, 3 - hashtags.length)`, then `slice(0, 5)`. -/
def extractHashtags (content : Text) (platform : Platform) : List Text :=
  (extractContentTags content
    ++ jsSliceTo (3 - ((extractContentTags content).length : Int)) (commonHashtags platform)).take 5

/-- The fixed per-platform trending lists of `generateOptimizedHashtags`. -/
def trendingHashtags : Platform → List Text
  | .twitter => strs ["#AI", "#Tech", "#Innovation", "#Startup", "#Growth", "#Digital", "#Future", "#Success"]
  | .linkedin => strs ["#Leadership", "#Professional", "#Business", "#Career", "#Networking", "#Industry", "#Strategy", "#Growth"]
  | .newsletter => []

/-- The topic-cluster content tags of `generateOptimizedHashtags`
(route.ts lines 362-377). -/
def optimizedContentTags (content : Text) : List Text :=
  (if (longWords content).any (fun w =>
      (strs ["ai", "artificial", "intelligence", "machine", "learning"]).contains w) then
    strs ["#AI", "#MachineLearning", "#Technology"] else [])
  ++ (if (longWords content).any (fun w =>
      (strs ["business", "startup", "entrepreneur", "company"]).contains w) then
    strs ["#Business", "#Startup", "#Entrepreneur"] else [])
  ++ (if (longWords content).any (fun w =>
      (strs ["marketing", "brand", "social", "content"]).contains w) then
    strs ["#Marketing", "#Branding", "#ContentMarketing"] else [])

/-- First-occurrence de-duplication, the semantics of
`[...new Set(list)]` (a JS `Set` keeps insertion order). -/
def setDedupAux (seen : List Text) : List Text → List Text
  | [] => []
  | x :: xs => if x ∈ seen then setDedupAux seen xs else x :: setDedupAux (x :: seen) xs

def setDedup (l : List Text) : List Text := setDedupAux [] l

/-- `generateOptimizedHashtags` (route.ts lines 342-384). -/
def generateOptimizedHashtags (content : Text) (platform : Platform) : List Text :=
  (setDedup (optimizedContentTags content ++ trendingHashtags platform)).take 5

/-! ## Engagement forecaster (`predictEngagement`, route.ts lines 239-305,
`getOptimalPostingTime`, lines 307-340) -/

/-- Emoji-range character, the character class of the `hasEmojis` regex. -/
def isEmojiChar (c : Char) : Bool :=
  decide ((0x1F600 ≤ c.toNat ∧ c.toNat ≤ 0x1F64F) ∨ (0x1F300 ≤ c.toNat ∧ c.toNat ≤ 0x1F5FF)
    ∨ (0x1F680 ≤ c.toNat ∧ c.toNat ≤ 0x1F6FF) ∨ (0x1F1E0 ≤ c.toNat ∧ c.toNat ≤ 0x1F1FF))

/-- The call-to-action alternatives of the `hasCallToAction` regex. -/
def ctaPhrases : List Text :=
  strs ["share", "comment", "like", "follow", "subscribe", "click", "learn more", "read more"]

/-- Case-insensitive word-bounded match of `pat` at position `i` of `s`
(the `\b...\b` anchors of the regex; a position past the end of the string
counts as a boundary, which the `' '` default of `getD` provides). -/
def wordBoundedAt (pat s : Text) (i : Nat) : Bool :=
  decide (lowerText ((s.drop i).take pat.length) = pat)
    && (decide (i = 0) || !jsWordChar (s.getD (i - 1) ' '))
    && !jsWordChar (s.getD (i + pat.length) ' ')

/-- `/\b(...)\b/i.test(s)` for a word-character pattern `pat`. -/
def testWordBounded (pat s : Text) : Bool :=
  (List.range (s.length + 1)).any (wordBoundedAt pat s)

/-- The `hasCallToAction` test of `predictEngagement` (route.ts line 247). -/
def hasCallToAction (content : Text) : Bool :=
  ctaPhrases.any (fun p => testWordBounded p content)

/-- Base engagement score (route.ts lines 249-260): 50 plus the sentiment
and text-feature bonuses. -/
def engagementBase (content : Text) (sentiment : SentimentResult) : Int :=
  50
  + (if sentiment.label = .positive then 15
     else if sentiment.label = .negative then 5 else 0)
  + (if content.contains '#' then 10 else 0)
  + (if content.any isEmojiChar then 8 else 0)
  + (if content.contains '?' then 12 else 0)
  + (if hasCallToAction content then 15 else 0)

/-- The injected pseudo-random values consumed by one social-platform
forecast (`Math.random() * k` is modelled as an arbitrary rational). -/
structure Jitter where
  a : ℚ
  b : ℚ
  c : ℚ
deriving DecidableEq, Repr

/-- `getOptimalPostingTime` (route.ts lines 307-340), with the clock reading
(`currentHour`, and for the newsletter `dayOfWeek`) injected. -/
def getOptimalPostingTime (platform : Platform) (currentHour dayOfWeek : Nat) : Text :=
  match platform with
  | .twitter =>
    if currentHour < 9 then ("9:00 AM today".toList)
    else if currentHour < 13 then ("1:00 PM today".toList)
    else if currentHour < 17 then ("5:00 PM today".toList)
    else ("9:00 AM tomorrow".toList)
  | .linkedin =>
    if currentHour < 8 then ("8:00 AM today".toList)
    else if currentHour < 12 then ("12:00 PM today".toList)
    else if currentHour < 17 then ("5:00 PM today".toList)
    else ("8:00 AM tomorrow".toList)
  | .newsletter =>
    if 2 ≤ dayOfWeek ∧ dayOfWeek ≤ 4 then
      (if currentHour < 10 then ("10:00 AM today".toList)
       else if currentHour < 14 then ("2:00 PM today".toList)
       else ("10:00 AM tomorrow".toList))
    else ("Tuesday 10:00 AM".toList)

structure TwitterForecast where
  predicted_likes : Int
  predicted_retweets : Int
  predicted_replies : Int
  engagement_score : Int
  optimal_posting_time : Text
deriving DecidableEq, Repr

structure LinkedinForecast where
  predicted_likes : Int
  predicted_shares : Int
  predicted_comments : Int
  engagement_score : Int
  optimal_posting_time : Text
deriving DecidableEq, Repr

structure NewsletterForecast where
  predicted_open_rate : ℚ
  predicted_click_rate : ℚ
  engagement_score : Int
  optimal_send_time : Text
deriving DecidableEq, Repr

/-- The `"twitter"` branch of `predictEngagement` (route.ts lines 264-275). -/
def predictEngagementTwitter (content : Text) (sentiment : SentimentResult)
    (j : Jitter) (hour day : Nat) : TwitterForecast :=
  let base :=
    if 71 ≤ content.length ∧ content.length ≤ 100 then engagementBase content sentiment + 10
    else if 280 < content.length then engagementBase content sentiment - 20
    else engagementBase content sentiment
  { predicted_likes := jsRound ((base : ℚ) * (23/10) + j.a)
    predicted_retweets := jsRound ((base : ℚ) * (8/10) + j.b)
    predicted_replies := jsRound ((base : ℚ) * (5/10) + j.c)
    engagement_score := min 100 base
    optimal_posting_time := getOptimalPostingTime .twitter hour day }

/-- The `"linkedin"` branch of `predictEngagement` (route.ts lines 277-288).
Note the word count here is `content.split(/\s+/).length` without any
filtering of empty tokens, as in the source. -/
def predictEngagementLinkedin (content : Text) (sentiment : SentimentResult)
    (j : Jitter) (hour day : Nat) : LinkedinForecast :=
  let wordCount := (jsSplitRun jsWhitespaceChar content).length
  let base :=
    (if 50 ≤ wordCount ∧ wordCount ≤ 200 then engagementBase content sentiment + 15
     else engagementBase content sentiment)
    + (if containsSub ("professional".toList) content
          || containsSub ("business".toList) content then 10 else 0)
  { predicted_likes := jsRound ((base : ℚ) * (18/10) + j.a)
    predicted_shares := jsRound ((base : ℚ) * (6/10) + j.b)
    predicted_comments := jsRound ((base : ℚ) * (9/10) + j.c)
    engagement_score := min 100 base
    optimal_posting_time := getOptimalPostingTime .linkedin hour day }

/-- The `"newsletter"` branch of `predictEngagement` (route.ts lines 290-300):
the subject-line adjustment looks at `content.split(".")[0]`. -/
def predictEngagementNewsletter (content : Text) (sentiment : SentimentResult)
    (hour day : Nat) : NewsletterForecast :=
  let subjectScore : Int :=
    if ((jsSplitChar '.' content).headD []).length ≤ 50 then 10 else -5
  let base := engagementBase content sentiment + subjectScore
  { predicted_open_rate := min 45 (max 15 ((base : ℚ) * (6/10)))
    predicted_click_rate := min 15 (max 2 ((base : ℚ) * (2/10)))
    engagement_score := min 100 base
    optimal_send_time := getOptimalPostingTime .newsletter hour day }

/-! ## Pipeline orchestrator (`POST`, route.ts lines 470-549) -/

/-- The injected non-determinism of one request: the jitter consumed by the
two social forecasts and the clock reading. -/
structure Env where
  jTwitter : Jitter
  jLinkedin : Jitter
  hour : Nat
  day : Nat
deriving DecidableEq, Repr

structure PlatformSocial where
  content : Text
  hashtags : List Text
  character_count : Nat
deriving DecidableEq, Repr

structure PlatformNewsletter where
  content : Text
  subject_line : Text
  word_count : Nat
deriving DecidableEq, Repr

structure ProcessedContent where
  original_content : Text
  sentiment : SentimentResult
  forecast_twitter : TwitterForecast
  forecast_linkedin : LinkedinForecast
  forecast_newsletter : NewsletterForecast
  platform_twitter : PlatformSocial
  platform_linkedin : PlatformSocial
  platform_newsletter : PlatformNewsletter
  content_type : Text
  readability_score : Int
deriving DecidableEq, Repr

/-- The newsletter subject line of the handler (route.ts line 505):
`content.split(".")[0].substring(0, 50) + (content.length > 50 ? "..." : "")`. -/
def subjectLineOf (content : Text) : Text :=
  ((jsSplitChar '.' content).headD []).take 50
    ++ (if 50 < content.length then ellipsisMarker else [])

/-- The successful branch of the `POST` handler (route.ts lines 482-542):
sentiment once, the three forecasts computed from the raw content, then the
three adapted variants, hashtags from the raw content, subject line and
metadata.  The fields involving `Date.now`, the optimised-content variants
and the constant language tag carry no claim and are not modelled. -/
def processContent (content : Text) (audience tone : Option Text) (env : Env) :
    ProcessedContent :=
  { original_content := content
    sentiment := analyzeSentiment content
    forecast_twitter :=
      predictEngagementTwitter content (analyzeSentiment content) env.jTwitter env.hour env.day
    forecast_linkedin :=
      predictEngagementLinkedin content (analyzeSentiment content) env.jLinkedin env.hour env.day
    forecast_newsletter :=
      predictEngagementNewsletter content (analyzeSentiment content) env.hour env.day
    platform_twitter :=
      { content := adaptForPlatform content .twitter audience tone
        hashtags := generateOptimizedHashtags content .twitter
        character_count := (adaptForPlatform content .twitter audience tone).length }
    platform_linkedin :=
      { content := adaptForPlatform content .linkedin audience tone
        hashtags := generateOptimizedHashtags content .linkedin
        character_count := (adaptForPlatform content .linkedin audience tone).length }
    platform_newsletter :=
      { content := adaptForPlatform content .newsletter audience tone
        subject_line := subjectLineOf content
        word_count :=
          (jsSplitRun jsWhitespaceChar (adaptForPlatform content .newsletter audience tone)).length }
    content_type := if 500 < content.length then ("long-form".toList) else ("short-form".toList)
    readability_score := calculateReadability content }

inductive PipelineError
  | invalidInput
deriving DecidableEq, Repr

structure ContentRequest where
  content : Option Text
  target_audience : Option Text
  tone : Option Text

/-- The `POST` handler (route.ts lines 470-549): a missing or
blank-after-trim content is rejected with a client error before anything
else runs; otherwise the full result is produced. -/
def postHandler (body : ContentRequest) (env : Env) :
    Except PipelineError ProcessedContent :=
  match body.content with
  | none => .error .invalidInput
  | some c =>
    if (jsTrim c).length = 0 then .error .invalidInput
    else .ok (processContent c body.target_audience body.tone env)

/-! ## Definitions taken from the spec's words, for comparison against the
code-derived definitions above -/

/-- The four-case sentiment policy exactly as the spec states it (§4.1):
both counts zero, positive majority, negative majority, nonzero tie. -/
def fourCasePolicy (positiveCount negativeCount : Nat) : SentimentResult :=
  if positiveCount = 0 ∧ negativeCount = 0 then ⟨.neutral, 1/2⟩
  else if negativeCount < positiveCount then
    ⟨.positive, min (95/100)
      (6/10 + ((positiveCount : ℚ) / ((positiveCount : ℚ) + (negativeCount : ℚ))) * (4/10))⟩
  else if positiveCount < negativeCount then
    ⟨.negative, min (95/100)
      (6/10 + ((negativeCount : ℚ) / ((positiveCount : ℚ) + (negativeCount : ℚ))) * (4/10))⟩
  else ⟨.neutral, 7/10⟩

/-- Alphanumeric character — the token class named by claim C2
("split on non-alphanumeric boundaries"); unlike the code's `\W`,
the underscore is a separator here. -/
def isAlnumChar (c : Char) : Bool :=
  decide (('a' ≤ c ∧ c ≤ 'z') ∨ ('A' ≤ c ∧ c ≤ 'Z') ∨ ('0' ≤ c ∧ c ≤ '9'))

/-- Tokenization as claim C2 words it: case-normalized tokens split on
non-alphanumeric boundaries. -/
def claimTokens (text : Text) : List Text :=
  jsSplitRun (fun c => !isAlnumChar c) (lowerText text)

def claimPositiveHits (text : Text) : Nat :=
  (claimTokens text).countP (fun w => positiveWords.contains w)

def claimNegativeHits (text : Text) : Nat :=
  (claimTokens text).countP (fun w => negativeWords.contains w)

/-- Sentiment classification as claim C2 states it: the four-case policy
over counts of lexicon hits on tokens split at non-alphanumeric characters. -/
def claimSentiment (text : Text) : SentimentResult :=
  fourCasePolicy (claimPositiveHits text) (claimNegativeHits text)

/-- The newsletter subject line as claim C10 words it: the first
`'.'`-delimited segment truncated to its first 50 units, with an ellipsis
appended exactly when the whole original text is longer than 50 units. -/
def subjectSpec (content : Text) : Text :=
  (content.takeWhile (fun c => !decide (c = '.'))).take 50
    ++ (if 50 < content.length then ellipsisMarker else [])

/-- A concrete environment for closed instances: zero jitter, hour 0, day 0. -/
def env0 : Env := ⟨⟨0, 0, 0⟩, ⟨0, 0, 0⟩, 0, 0⟩

/-! ## Helper lemmas shared by several results -/

/-- The list produced by the JS-`Set` de-duplication has no duplicates, and
avoids everything already seen. -/
theorem setDedupAux_nodup (l : List Text) : ∀ seen,
    (setDedupAux seen l).Nodup ∧ ∀ x ∈ setDedupAux seen l, x ∉ seen := by
  induction l with
  | nil => intro seen; exact ⟨List.nodup_nil, by intro x hx; cases hx⟩
  | cons x xs ih =>
    intro seen
    unfold setDedupAux
    by_cases hx : x ∈ seen
    · rw [if_pos hx]; exact ih seen
    · rw [if_neg hx]
      obtain ⟨hnd, hmem⟩ := ih (x :: seen)
      refine ⟨List.nodup_cons.mpr ⟨fun hxin => (hmem x hxin) (List.mem_cons_self x seen), hnd⟩, ?_⟩
      intro y hy
      rcases List.mem_cons.mp hy with h | h
      · subst h; exact hx
      · exact fun hyseen => (hmem y h) (List.mem_cons_of_mem x hyseen)

/-- The first element of a JS single-character split is the prefix before
the first separator. -/
theorem jsSplitCharAux_headD (dc : Char) (s : Text) : ∀ acc,
    (jsSplitCharAux dc s acc).headD []
      = acc.reverse ++ s.takeWhile (fun c => !decide (c = dc)) := by
  induction s with
  | nil => intro acc; simp [jsSplitCharAux]
  | cons c rest ih =>
    intro acc
    unfold jsSplitCharAux
    by_cases hc : c = dc
    · rw [if_pos hc]
      simp [List.takeWhile_cons, hc]
    · rw [if_neg hc]
      rw [ih (c :: acc)]
      simp [List.takeWhile_cons, hc]

theorem jsSplitChar_head (dc : Char) (s : Text) :
    (jsSplitChar dc s).headD [] = s.takeWhile (fun c => !decide (c = dc)) := by
  simpa [jsSplitChar] using jsSplitCharAux_headD dc s []

/-! ## Claim C1 -/

/-- C1, counterexample: on the accepted request with content `"Hi."`, the
handler's twitter forecast (engagement score 50) is computed from the raw
submitted text; the forecast of the channel's adapted text
(`"Hi. What do you think?"`, which gains the question-mark bonus) would have
engagement score 62, so the claim that the forecaster consumes the Channel
Adapter's output is false on the code. -/
theorem c1_counterexample :
    (processContent ("Hi.".toList) none none env0).forecast_twitter.engagement_score = 50
    ∧ (predictEngagementTwitter (adaptForPlatform ("Hi.".toList) .twitter none none)
        (analyzeSentiment ("Hi.".toList)) env0.jTwitter env0.hour env0.day).engagement_score = 62
    ∧ (processContent ("Hi.".toList) none none env0).forecast_twitter
        ≠ predictEngagementTwitter (adaptForPlatform ("Hi.".toList) .twitter none none)
            (analyzeSentiment ("Hi.".toList)) env0.jTwitter env0.hour env0.day := by
  refine ⟨by decide, by decide, fun h => ?_⟩
  have hs := congrArg TwitterForecast.engagement_score h
  rw [show (processContent ("Hi.".toList) none none env0).forecast_twitter.engagement_score
        = 50 from by decide,
      show (predictEngagementTwitter (adaptForPlatform ("Hi.".toList) .twitter none none)
          (analyzeSentiment ("Hi.".toList)) env0.jTwitter env0.hour env0.day).engagement_score
        = 62 from by decide] at hs
  exact absurd hs (by decide)

/-- C1 (amended): every channel's forecast is computed from the RAW submitted
text — each forecast field of the handler's result equals the forecaster
applied to the raw content, and is therefore independent of the tone and
audience options that drive the Channel Adapter. -/
theorem c1_forecasts_from_raw (content : Text) (audience tone : Option Text) (env : Env) :
    (processContent content audience tone env).forecast_twitter
      = predictEngagementTwitter content (analyzeSentiment content) env.jTwitter env.hour env.day
    ∧ (processContent content audience tone env).forecast_linkedin
      = predictEngagementLinkedin content (analyzeSentiment content) env.jLinkedin env.hour env.day
    ∧ (processContent content audience tone env).forecast_newsletter
      = predictEngagementNewsletter content (analyzeSentiment content) env.hour env.day
    ∧ (processContent content audience tone env).forecast_twitter
      = (processContent content none none env).forecast_twitter
    ∧ (processContent content audience tone env).forecast_linkedin
      = (processContent content none none env).forecast_linkedin
    ∧ (processContent content audience tone env).forecast_newsletter
      = (processContent content none none env).forecast_newsletter :=
  ⟨rfl, rfl, rfl, rfl, rfl, rfl⟩

/-! ## Claim C2 -/

/-- C2, counterexample: the code tokenizes on `\W+`, under which the
underscore is a word character; on `"good_stuff"` the code sees the single
token `good_stuff` (no lexicon hit, hence neutral/0.5), while the claim's
tokenization "split on non-alphanumeric boundaries" yields `good`/`stuff`
and hence a positive classification with confidence 0.95. -/
theorem c2_counterexample :
    analyzeSentiment ("good_stuff".toList) = ⟨.neutral, 1/2⟩
    ∧ claimSentiment ("good_stuff".toList) = ⟨.positive, 95/100⟩
    ∧ analyzeSentiment ("good_stuff".toList) ≠ claimSentiment ("good_stuff".toList) := by
  have hp : positiveHits ("good_stuff".toList) = 0 := by decide
  have hn : negativeHits ("good_stuff".toList) = 0 := by decide
  have hcp : claimPositiveHits ("good_stuff".toList) = 1 := by decide
  have hcn : claimNegativeHits ("good_stuff".toList) = 0 := by decide
  have h1 : analyzeSentiment ("good_stuff".toList) = ⟨.neutral, 1/2⟩ := by
    unfold analyzeSentiment
    rw [hp, hn]
    norm_num
  have h2 : claimSentiment ("good_stuff".toList) = ⟨.positive, 95/100⟩ := by
    unfold claimSentiment fourCasePolicy
    rw [hcp, hcn]
    norm_num
  refine ⟨h1, h2, ?_⟩
  rw [h1, h2]
  intro hcontra
  exact SentimentLabel.noConfusion (congrArg SentimentResult.label hcontra)

/-- C2 (amended): sentiment classification follows exactly the spec's
four-case policy on the counts of positive vs. negative lexicon hits, where
tokens are case-normalized and split on non-WORD boundaries (`\W+`, i.e.
non-alphanumeric-or-underscore), rather than non-alphanumeric boundaries. -/
theorem c2_four_case_policy (text : Text) :
    analyzeSentiment text = fourCasePolicy (positiveHits text) (negativeHits text) := by
  unfold analyzeSentiment fourCasePolicy
  split_ifs <;> first | rfl | omega

/-! ## Claim C3 -/

/-- C3: a request whose text is missing, or consists only of whitespace, is
rejected with the client error `invalidInput`; no `ProcessedContent` of any
kind is produced.  (In the embedding the guard precedes the construction of
the result, matching "before any analysis component runs".) -/
theorem c3_blank_rejected (c : Text) (audience tone : Option Text) (env : Env)
    (h : ∀ ch ∈ c, jsWhitespaceChar ch) :
    postHandler ⟨some c, audience, tone⟩ env = .error .invalidInput
    ∧ postHandler ⟨none, audience, tone⟩ env = .error .invalidInput
    ∧ ¬ ∃ r, postHandler ⟨some c, audience, tone⟩ env = .ok r := by
  have htrim : jsTrim c = [] := by
    unfold jsTrim
    rw [List.dropWhile_eq_nil_iff.mpr h]
    simp
  have h1 : postHandler ⟨some c, audience, tone⟩ env = .error .invalidInput := by
    simp [postHandler, htrim]
  refine ⟨h1, rfl, ?_⟩
  rintro ⟨r, hr⟩
  rw [h1] at hr
  cases hr

/-- Witness for C3 at the concrete whitespace-only input `"  "`. -/
theorem c3_blank_rejected_witness :
    postHandler ⟨some ("  ".toList), none, none⟩ env0 = .error .invalidInput :=
  (c3_blank_rejected ("  ".toList) none none env0 (by decide)).1

/-! ## Claim C4 -/

/-- C4, counterexample: the baseline extractor does not de-duplicate.  On the
text `"innovation"` (one content tag `#innovation`, then
`platformTags.slice(0, 2)` which again contains `#innovation`) the twitter
hashtag list is `[#innovation, #tech, #innovation]` — a duplicate entry. -/
theorem c4_counterexample :
    extractHashtags ("innovation".toList) .twitter
      = [("#innovation".toList), ("#tech".toList), ("#innovation".toList)]
    ∧ ¬ (extractHashtags ("innovation".toList) .twitter).Nodup :=
  ⟨by decide, by decide⟩

/-- C4 (amended): under both strategies the hashtag list has at most 5
entries, and the optimized deriver's list (which passes through a JS `Set`)
has no duplicates; the baseline extractor's list, however, may contain
duplicates (see the counterexample). -/
theorem c4_bounds (content : Text) (platform : Platform) :
    (extractHashtags content platform).length ≤ 5
    ∧ (generateOptimizedHashtags content platform).length ≤ 5
    ∧ (generateOptimizedHashtags content platform).Nodup := by
  refine ⟨?_, ?_, ?_⟩
  · unfold extractHashtags
    exact List.length_take_le 5 _
  · unfold generateOptimizedHashtags
    exact List.length_take_le 5 _
  · unfold generateOptimizedHashtags
    exact List.Nodup.sublist (List.take_sublist 5 _) (setDedupAux_nodup _ []).1

/-! ## Claim C5 -/

/-- C5, counterexample: the single-fragment text `"Hello"` (one sentence
fragment, one word, two vowel runs) scores
`round(206.835 − 1.015·1 − 84.6·2) = 37`, not 50: a single-fragment text does
not yield the neutral default. -/
theorem c5_counterexample :
    sentenceCount ("Hello".toList) = 1
    ∧ calculateReadability ("Hello".toList) = 37
    ∧ calculateReadability ("Hello".toList) ≠ 50 := by
  have hs : sentenceCount ("Hello".toList) = 1 := by decide
  have hw : wordCountFiltered ("Hello".toList) = 1 := by decide
  have hy : syllableCount ("Hello".toList) = 2 := by decide
  have h37 : calculateReadability ("Hello".toList) = 37 := by
    unfold calculateReadability
    rw [hs, hw, hy]
    norm_num [jsRound]
  exact ⟨hs, h37, by rw [h37]; decide⟩

/-- C5 (amended): the readability score is an integer in [0,100]; when the
sentence count or the word count is zero the result is exactly 50, and the
empty text yields exactly 50 — but a nonempty single-fragment text need not
(see the counterexample). -/
theorem c5_bounds (text : Text) :
    0 ≤ calculateReadability text
    ∧ calculateReadability text ≤ 100
    ∧ (sentenceCount text = 0 ∨ wordCountFiltered text = 0 → calculateReadability text = 50)
    ∧ calculateReadability [] = 50 := by
  refine ⟨?_, ?_, ?_, by decide⟩
  · unfold calculateReadability
    split
    · norm_num
    · exact le_max_left 0 _
  · unfold calculateReadability
    split
    · norm_num
    · exact max_le (by norm_num) (min_le_left _ _)
  · intro h
    unfold calculateReadability
    rw [if_pos h]

/-- Witness for C5 at the concrete input `"?"`, which has zero sentence
fragments after trimming. -/
theorem c5_bounds_witness :
    sentenceCount ("?".toList) = 0 ∧ calculateReadability ("?".toList) = 50 :=
  ⟨by decide, (c5_bounds ("?".toList)).2.2.1 (Or.inl (by decide))⟩

/-! ## Claim C6 -/

/-- C6: for every text and optional tone, the `short_form` (twitter) adapter
truncates the tone-adjusted text to 240 units plus the ellipsis marker
whenever it is longer than 240; it appends the fixed engagement prompt
exactly when the (possibly truncated) text is under 200 units — which happens
iff the tone-adjusted text is under 200 — and the output length never exceeds
240 + 3 = 243 (so in particular a 300-character input yields at most 244). -/
theorem c6_short_form (content : Text) (audience tone : Option Text) :
    (240 < (applyTone tone content).length →
      adaptForPlatform content .twitter audience tone
        = (applyTone tone content).take 240 ++ ellipsisMarker)
    ∧ ((applyTone tone content).length < 200 →
      adaptForPlatform content .twitter audience tone
        = applyTone tone content ++ engagementPrompt)
    ∧ (200 ≤ (applyTone tone content).length → (applyTone tone content).length ≤ 240 →
      adaptForPlatform content .twitter audience tone = applyTone tone content)
    ∧ (adaptForPlatform content .twitter audience tone).length ≤ 243 := by
  set t := applyTone tone content with ht
  have hadapt : adaptForPlatform content .twitter audience tone
      = twitterPrompt (twitterTruncate t) := rfl
  by_cases h1 : 240 < t.length
  · have htr : twitterTruncate t = t.take 240 ++ ellipsisMarker := by
      unfold twitterTruncate; rw [if_pos h1]
    have hlen : (t.take 240 ++ ellipsisMarker).length = 243 := by
      rw [List.length_append, List.length_take, min_eq_left (le_of_lt h1)]
      rfl
    have hpr : twitterPrompt (t.take 240 ++ ellipsisMarker) = t.take 240 ++ ellipsisMarker := by
      unfold twitterPrompt
      rw [if_neg (by rw [hlen]; omega)]
    refine ⟨fun _ => by rw [hadapt, htr, hpr],
            fun h2 => absurd h2 (by omega),
            fun h2 h3 => absurd h1 (by omega), ?_⟩
    rw [hadapt, htr, hpr, hlen]
  · have htr : twitterTruncate t = t := by unfold twitterTruncate; rw [if_neg h1]
    by_cases h2 : t.length < 200
    · have hpr : twitterPrompt t = t ++ engagementPrompt := by
        unfold twitterPrompt; rw [if_pos h2]
      refine ⟨fun hc => absurd hc h1,
              fun _ => by rw [hadapt, htr, hpr],
              fun h3 _ => absurd h2 (by omega), ?_⟩
      rw [hadapt, htr, hpr, List.length_append]
      have hep : engagementPrompt.length = 19 := by decide
      omega
    · have hpr : twitterPrompt t = t := by unfold twitterPrompt; rw [if_neg h2]
      refine ⟨fun hc => absurd hc h1,
              fun hc => absurd hc h2,
              fun _ _ => by rw [hadapt, htr, hpr], ?_⟩
      rw [hadapt, htr, hpr]
      omega

/-- Witness for C6 at a concrete 300-character input with no tone: the
result is the 240-character prefix plus the ellipsis, of length 243 ≤ 244. -/
theorem c6_short_form_witness :
    adaptForPlatform (List.replicate 300 'a') .twitter none none
      = (applyTone none (List.replicate 300 'a')).take 240 ++ ellipsisMarker
    ∧ (adaptForPlatform (List.replicate 300 'a') .twitter none none).length ≤ 244 := by
  have h := c6_short_form (List.replicate 300 'a') none none
  have h300 : (applyTone none (List.replicate 300 'a')).length = 300 := by
    show (List.replicate 300 'a').length = 300
    exact List.length_replicate 300 'a'
  exact ⟨h.1 (by omega), le_trans h.2.2.2 (by norm_num)⟩

/-! ## Claim C7 -/

/-- C7, counterexample: on a text with no topic-trigger words the baseline
extractor returns the first THREE channel tags, not five —
`platformTags.slice(0, 3 - hashtags.length)` fills only up to 3 slots. -/
theorem c7_counterexample :
    extractContentTags ("hello world".toList) = []
    ∧ extractHashtags ("hello world".toList) .twitter
        = [("#tech".toList), ("#innovation".toList), ("#business".toList)]
    ∧ (extractHashtags ("hello world".toList) .twitter).length ≠ 5 :=
  ⟨by decide, by decide, by decide⟩

/-- C7 (amended): in the baseline strategy, for a non-digest channel, when
the content-based tags number at most 3 the channel-specific tags are
appended to fill the remaining slots up to a total of THREE (content-based
tags first, then channel tags); in particular a text with no topic-trigger
words yields exactly 3 channel tags. -/
theorem c7_fill_to_three (content : Text) (platform : Platform)
    (hp : platform ≠ Platform.newsletter)
    (hk : (extractContentTags content).length ≤ 3) :
    extractHashtags content platform
      = extractContentTags content
        ++ (commonHashtags platform).take (3 - (extractContentTags content).length)
    ∧ (extractHashtags content platform).length = 3 := by
  have hcommon : (commonHashtags platform).length = 6 := by
    cases platform
    · decide
    · decide
    · exact absurd rfl hp
  have hslice : jsSliceTo (3 - ((extractContentTags content).length : Int)) (commonHashtags platform)
      = (commonHashtags platform).take (3 - (extractContentTags content).length) := by
    unfold jsSliceTo
    rw [if_neg (by omega)]
    congr 1
    omega
  have heq : extractHashtags content platform
      = extractContentTags content
        ++ (commonHashtags platform).take (3 - (extractContentTags content).length) := by
    unfold extractHashtags
    rw [hslice]
    apply List.take_of_length_le
    rw [List.length_append, List.length_take, hcommon]
    omega
  refine ⟨heq, ?_⟩
  rw [heq, List.length_append, List.length_take, hcommon]
  omega

/-- Witness for C7 at the concrete trigger-free input `"x"` on twitter. -/
theorem c7_fill_to_three_witness :
    extractHashtags ("x".toList) .twitter
      = (commonHashtags Platform.twitter).take 3
    ∧ (extractHashtags ("x".toList) .twitter).length = 3 := by
  have h := c7_fill_to_three ("x".toList) .twitter (by decide) (by decide)
  have hempty : extractContentTags ("x".toList) = [] := by decide
  refine ⟨?_, h.2⟩
  rw [h.1, hempty]
  rfl

/-! ## Claim C8 -/

/-- C8: for every text the sentiment confidence lies in [0.5, 0.95] and is
never 1.0. -/
theorem c8_confidence_bounds (text : Text) :
    1/2 ≤ (analyzeSentiment text).confidence
    ∧ (analyzeSentiment text).confidence ≤ 95/100
    ∧ (analyzeSentiment text).confidence ≠ 1 := by
  have key : ∀ num den : ℚ, 0 ≤ num → 0 ≤ den →
      1/2 ≤ min (95/100 : ℚ) (6/10 + (num/den) * (4/10))
      ∧ min (95/100 : ℚ) (6/10 + (num/den) * (4/10)) ≤ 95/100
      ∧ min (95/100 : ℚ) (6/10 + (num/den) * (4/10)) ≠ 1 := by
    intro num den hnum hden
    have hr : (0:ℚ) ≤ num/den := div_nonneg hnum hden
    have h40 : (0:ℚ) ≤ (num/den) * (4/10) := mul_nonneg hr (by norm_num)
    refine ⟨le_min (by norm_num) (by linarith), min_le_left _ _, ?_⟩
    have hle := min_le_left (95/100 : ℚ) (6/10 + (num/den) * (4/10))
    intro hcontra
    rw [hcontra] at hle
    norm_num at hle
  unfold analyzeSentiment
  split_ifs with h1 h2 h3
  · exact ⟨by norm_num, by norm_num, by norm_num⟩
  · exact key _ _ (Nat.cast_nonneg _) (by positivity)
  · exact key _ _ (Nat.cast_nonneg _) (by positivity)
  · exact ⟨by norm_num, by norm_num, by norm_num⟩

/-! ## Claim C9 -/

/-- C9: a positive or negative label comes with confidence strictly above
0.8; a neutral label comes with confidence exactly 0.5 or exactly 0.7; the
confidence never falls in the gap (0.7, 0.8]. -/
theorem c9_confidence_gap (text : Text) :
    ((analyzeSentiment text).label = .positive ∨ (analyzeSentiment text).label = .negative
      → 4/5 < (analyzeSentiment text).confidence)
    ∧ ((analyzeSentiment text).label = .neutral
      → (analyzeSentiment text).confidence = 1/2 ∨ (analyzeSentiment text).confidence = 7/10)
    ∧ ¬ (7/10 < (analyzeSentiment text).confidence
          ∧ (analyzeSentiment text).confidence ≤ 4/5) := by
  have key : ∀ a b : Nat, b < a →
      4/5 < min (95/100 : ℚ) (6/10 + ((a:ℚ) / ((a:ℚ) + (b:ℚ))) * (4/10)) := by
    intro a b hab
    have ha : (1:ℚ) ≤ (a:ℚ) := by
      have : 1 ≤ a := by omega
      exact_mod_cast this
    have hb : (0:ℚ) ≤ (b:ℚ) := Nat.cast_nonneg _
    have hden : (0:ℚ) < (a:ℚ) + (b:ℚ) := by linarith
    have hr : (1:ℚ)/2 < (a:ℚ) / ((a:ℚ) + (b:ℚ)) := by
      rw [lt_div_iff₀ hden]
      have hba : (b:ℚ) < (a:ℚ) := by exact_mod_cast hab
      linarith
    refine lt_min (by norm_num) ?_
    nlinarith
  unfold analyzeSentiment
  split_ifs with h1 h2 h3
  · refine ⟨fun h => ?_, fun _ => Or.inl rfl, by norm_num⟩
    exact h.elim (fun h => nomatch h) (fun h => nomatch h)
  · refine ⟨fun _ => key _ _ h2, And.intro (fun h => h.elim) ?_⟩
    have := key _ _ h2
    rintro ⟨-, hc2⟩
    have : (4/5 : ℚ) < 4/5 := lt_of_lt_of_le this hc2
    exact absurd this (lt_irrefl _)
  · have hswap : ((positiveHits text : ℚ) + (negativeHits text : ℚ))
        = ((negativeHits text : ℚ) + (positiveHits text : ℚ)) := by ring
    have hlt : 4/5 < min (95/100 : ℚ)
        (6/10 + ((negativeHits text : ℚ)
          / ((positiveHits text : ℚ) + (negativeHits text : ℚ))) * (4/10)) := by
      rw [hswap]
      exact key _ _ h3
    refine ⟨fun _ => hlt, And.intro (fun h => h.elim) ?_⟩
    rintro ⟨-, hc2⟩
    have : (4/5 : ℚ) < 4/5 := lt_of_lt_of_le hlt hc2
    exact absurd this (lt_irrefl _)
  · refine ⟨fun h => ?_, fun _ => Or.inr rfl, ?_⟩
    · exact h.elim (fun h => nomatch h) (fun h => nomatch h)
    · rintro ⟨hc1, -⟩
      exact absurd hc1 (lt_irrefl _)

/-- Witness for C9 at the concrete input `"good"`: label positive and
confidence above 0.8. -/
theorem c9_confidence_gap_witness :
    (analyzeSentiment ("good".toList)).label = SentimentLabel.positive
    ∧ 4/5 < (analyzeSentiment ("good".toList)).confidence :=
  ⟨by decide, (c9_confidence_gap ("good".toList)).1 (Or.inl (by decide))⟩

/-! ## Claim C10 -/

/-- C10: for every accepted request, the newsletter `subject_line` is the
first `'.'`-delimited segment of the original text truncated to its first 50
units, with the ellipsis appended exactly when the whole original text is
longer than 50 units; its length never exceeds 53. -/
theorem c10_subject_line (c : Text) (audience tone : Option Text) (env : Env)
    (r : ProcessedContent)
    (h : postHandler ⟨some c, audience, tone⟩ env = .ok r) :
    r.platform_newsletter.subject_line = subjectSpec c
    ∧ r.platform_newsletter.subject_line.length ≤ 53 := by
  rw [show postHandler ⟨some c, audience, tone⟩ env
      = (if (jsTrim c).length = 0 then .error .invalidInput
         else .ok (processContent c audience tone env)) from rfl] at h
  by_cases hb : (jsTrim c).length = 0
  · rw [if_pos hb] at h
    cases h
  · rw [if_neg hb] at h
    have hr : r = processContent c audience tone env := by
      injection h with h'
      exact h'.symm
    subst hr
    have hs : (processContent c audience tone env).platform_newsletter.subject_line
        = subjectLineOf c := rfl
    rw [hs]
    constructor
    · unfold subjectLineOf subjectSpec
      rw [jsSplitChar_head]
    · unfold subjectLineOf
      rw [List.length_append, List.length_take]
      have he : ellipsisMarker.length = 3 := by decide
      by_cases h50 : 50 < c.length
      · rw [if_pos h50, he]
        omega
      · rw [if_neg h50]
        simp only [List.length_nil]
        omega

/-- Witness for C10 at the concrete accepted request `"Hi."`. -/
theorem c10_subject_line_witness :
    (processContent ("Hi.".toList) none none env0).platform_newsletter.subject_line
      = ("Hi".toList)
    ∧ (processContent ("Hi.".toList) none none env0).platform_newsletter.subject_line.length
      ≤ 53 := by
  have h := c10_subject_line ("Hi.".toList) none none env0
    (processContent ("Hi.".toList) none none env0) rfl
  refine ⟨?_, h.2⟩
  rw [h.1]
  decide
